import Mathlib

/-!
Verification of the `mx` IMAP client (`src/mx/imap.py`) against its
natural-language specification.

The embedding below translates the Python source into Lean definitions:

* `imaplib` session states (`self.state`) become the `SessionState` enum;
* Python byte strings that the code parses become `List Char`;
* fallible commands become `Except PyErr`;
* `try/finally` blocks become explicit sequencing (`tryFinallySt`);
* the blocking IDLE generator becomes a step interpreter over a list of
  poll events (`InEvent`), recording the externally visible protocol
  actions (`IdleAct`) it performs.

Server-side behaviour (search/fetch/store semantics, response formats) is
not part of the repository; those definitions are modelled from the spec's
description of the wire protocol and are marked as such in doc comments.
-/

/-- The `imaplib` connection states stored in `self.state`. -/
inductive SessionState
  | NONAUTH
  | AUTH
  | SELECTED
  | IDLING
  | LOGOUT
deriving DecidableEq

/-- Errors raised by the client code: `self.error(details)` carries the
server-supplied detail (a request-error); `abort` is the imaplib abort
condition. -/
inductive PyErr
  | requestError (detail : String)
  | abortError (detail : String)
deriving DecidableEq

/-- A Python `try body finally fin` over an explicit session-state value:
the finaliser runs on the state left by the body whether or not the body
raised, and the body's outcome (value or error) is preserved. -/
def tryFinallySt {α : Type} (body : SessionState → SessionState × Except PyErr α)
    (fin : SessionState → SessionState) (st : SessionState) :
    SessionState × Except PyErr α :=
  let r := body st
  (fin r.1, r.2)

/-- `IMAP._idle_command` (imap.py:133-145): issues the IDLE command
(`cmdResult` is the outcome of `self._command('IDLE')`, which does not
change the state) and in its `finally` sets `self.state = 'IDLING'`. -/
def idle_command (cmdResult : Except PyErr Nat) (st : SessionState) :
    SessionState × Except PyErr Nat :=
  tryFinallySt (fun s => (s, cmdResult)) (fun _ => SessionState.IDLING) st

/-- `IMAP._done_command` (imap.py:147-160): sends `DONE` (`sendResult` is
the outcome of `self.send`), then checks the tagged completion `status`,
raising `self.error(data)` when it is not `'OK'`; its `finally` sets
`self.state = 'SELECTED'`. -/
def done_command (sendResult : Except PyErr Unit) (status : String)
    (data : String) (st : SessionState) : SessionState × Except PyErr Unit :=
  tryFinallySt
    (fun s =>
      (s, do
        sendResult
        if status = "OK" then pure () else throw (PyErr.requestError data)))
    (fun _ => SessionState.SELECTED) st

/-- `imaplib.IMAP4.select`: on an `'OK'` completion the state becomes
`SELECTED`; on any other completion imaplib resets the state to `AUTH`.
Returns the new state together with the `(status, details)` pair the
caller destructures. -/
def imaplibSelect (serverStatus serverDetail : String) :
    SessionState × String × String :=
  (if serverStatus = "OK" then SessionState.SELECTED else SessionState.AUTH,
   serverStatus, serverDetail)

/-- Entering `IMAP.mailbox` (imap.py:13-22): calls `select` and raises
`self.error(details)` when the status is not `'OK'`. -/
def mailbox_enter (serverStatus serverDetail : String) :
    SessionState × Except PyErr Unit :=
  let r := imaplibSelect serverStatus serverDetail
  if r.2.1 ≠ "OK" then (r.1, Except.error (PyErr.requestError r.2.2))
  else (r.1, Except.ok ())

/-- The `finally` of `IMAP.mailbox` (imap.py:26-29): issues `close()` iff
the state is still `'SELECTED'`; imaplib's `close` resets the state to
`AUTH` in its own `finally`.  The boolean records whether `close` was
issued. -/
def mailbox_exit (st : SessionState) : SessionState × Bool :=
  if st = SessionState.SELECTED then (SessionState.AUTH, true) else (st, false)

/-- The two transport-teardown primitives available to `login.__exit__`:
`logout()` (which also shuts the transport down) and `shutdown()`. -/
inductive Teardown
  | logout
  | shutdown
deriving DecidableEq

/-- The cleanup half of `login.__exit__` (imap.py:197-208): if the state
is `'AUTH'` call `logout()` — imaplib's `logout` sets the state to
`'LOGOUT'` before anything else — then, if the state is now `'NONAUTH'`,
call `shutdown()` directly.  Returns the list of teardown calls made. -/
def login_exit_cleanup (st : SessionState) : List Teardown :=
  let afterLogout := if st = SessionState.AUTH then SessionState.LOGOUT else st
  let t1 := if st = SessionState.AUTH then [Teardown.logout] else []
  let t2 := if afterLogout = SessionState.NONAUTH then [Teardown.shutdown] else []
  t1 ++ t2

/-- The Python exception classes distinguished by `login.__exit__`
(imap.py:210-218), with their real inheritance relations:
`InterruptedError ⊂ OSError`, `IMAP.abort ⊂ IMAP.error`,
`KeyboardInterrupt` outside both hierarchies. -/
inductive ExcClass
  | interruptedError
  | oserror
  | imapAbort
  | imapError
  | keyboardInterrupt
deriving DecidableEq

/-- Python `issubclass(c, OSError)`. -/
def isOSErrorSub : ExcClass → Bool
  | ExcClass.interruptedError => true
  | ExcClass.oserror => true
  | _ => false

/-- Python `issubclass(c, IMAP.abort)`. -/
def isAbortSub : ExcClass → Bool
  | ExcClass.imapAbort => true
  | _ => false

/-- Python `issubclass(c, IMAP.error)` (`abort` is a subclass of `error`). -/
def isIMAPErrorSub : ExcClass → Bool
  | ExcClass.imapAbort => true
  | ExcClass.imapError => true
  | _ => false

/-- What `login.__exit__` does with the in-flight exception. -/
inductive ExitBehavior
  | noError
  | passThrough (c : ExcClass)
  | raiseConnectionError (message : String)
  | raiseValueError (message : String)
deriving DecidableEq

/-- The exception-mapping half of `login.__exit__` (imap.py:210-218):
`InterruptedError` itself is passed through; `OSError` subclasses and
`IMAP.abort` become `ConnectionError(message)`; remaining `IMAP.error`s
become `ValueError(message)`; anything else propagates unchanged. -/
def login_exit_exc : Option (ExcClass × String) → ExitBehavior
  | none => ExitBehavior.noError
  | some (c, message) =>
    if c = ExcClass.interruptedError then ExitBehavior.passThrough c
    else if isOSErrorSub c || isAbortSub c then
      ExitBehavior.raiseConnectionError message
    else if isIMAPErrorSub c then ExitBehavior.raiseValueError message
    else ExitBehavior.passThrough c

/-- All of `login.__exit__` (imap.py:195-218): cleanup first (when a
client exists), then exception mapping. -/
def login_exit (client : Option SessionState)
    (exc : Option (ExcClass × String)) : List Teardown × ExitBehavior :=
  ((match client with
    | none => []
    | some st => login_exit_cleanup st),
   login_exit_exc exc)

/-! ### Byte-string helpers

Python byte strings are embedded as `List Char` (one `Char` per byte).
The helpers below model the exact Python primitives the source uses:
`bytes.split()`, `b','.join`, `int()` on digit strings, and the
`re.match` pattern of `fetch_unseen`. -/

/-- The decimal digit character for a value `0 ≤ k ≤ 9` (values above 9
do not occur; they are clamped to `'9'`). -/
def digitChar : Nat → Char
  | 0 => '0'
  | 1 => '1'
  | 2 => '2'
  | 3 => '3'
  | 4 => '4'
  | 5 => '5'
  | 6 => '6'
  | 7 => '7'
  | 8 => '8'
  | _ => '9'

/-- Numeric value of a decimal digit character. -/
def digitVal (c : Char) : Nat := c.toNat - 48

/-- Python `int()` on a byte string of decimal digits, as the source
applies to server-sent counts and identifiers. -/
def charsToNat (cs : List Char) : Nat :=
  cs.foldl (fun a c => 10 * a + digitVal c) 0

/-- The decimal rendering of a natural number, used to model the
server's rendering of sequence numbers and UIDs in its responses. -/
def natChars (n : Nat) : List Char :=
  if _h : n < 10 then [digitChar n]
  else natChars (n / 10) ++ [digitChar (n % 10)]
decreasing_by exact Nat.div_lt_self (by omega) (by omega)

/-- Split a byte string at every occurrence of the separator character
(Python `bytes.split(sep)`): always returns one (possibly empty) piece
more than there are separators. -/
def splitCh (c : Char) : List Char → List (List Char)
  | [] => [[]]
  | a :: rest =>
    match splitCh c rest with
    | [] => [[]]
    | g :: gs => if a = c then [] :: g :: gs else (a :: g) :: gs

/-- Join byte strings with a separator (Python `sep.join(pieces)`). -/
def joinSep (sep : List Char) : List (List Char) → List Char
  | [] => []
  | [x] => x
  | x :: xs => x ++ sep ++ joinSep sep xs

/-- Python `bytes.split()` with no argument, as used on the search
result: split on blanks and drop empty pieces. -/
def pysplit (xs : List Char) : List (List Char) :=
  (splitCh ' ' xs).filter (fun p => p ≠ [])

/-- `Modelled from the spec:` one item of the sequence-number range
expression of §4.6 ("2,10:12,15 means 2,10,11,12,15") as the server
parses it: either a single number or an inclusive range `a:b`. -/
def parseItem (xs : List Char) : Option (List Nat) :=
  match splitCh ':' xs with
  | [a] =>
    if a ≠ [] ∧ a.all Char.isDigit then some [charsToNat a] else none
  | [a, b] =>
    if a ≠ [] ∧ b ≠ [] ∧ a.all Char.isDigit ∧ b.all Char.isDigit then
      some (List.range' (charsToNat a) (charsToNat b + 1 - charsToNat a))
    else none
  | _ => none

/-- Map a fallible parse over a list, failing at the first failure (as
the Python loops crash at the first bad element). -/
def mapMOpt {α β : Type} (f : α → Option β) : List α → Option (List β)
  | [] => some []
  | a :: l =>
    match f a with
    | none => none
    | some b =>
      match mapMOpt f l with
      | none => none
      | some bs => some (b :: bs)

/-- `Modelled from the spec:` the server-side parse of a full
sequence-number set expression, comma-separated items. -/
def parseSequenceSet (xs : List Char) : Option (List Nat) :=
  Option.map List.flatten (mapMOpt parseItem (splitCh ',' xs))

/-- The literal `" (UID "` of the `fetch_unseen` pattern. -/
def uidLit : List Char := [' ', '(', 'U', 'I', 'D', ' ']

/-- The client-side regular expression of `fetch_unseen`
(imap.py:69): `re.match(r'(?P<index>\d+) \(UID (?P<uid>\d+).*', hdr)`,
returning the two captured digit groups when the pattern matches a
prefix of the header line. -/
def parseFetchHeader (xs : List Char) : Option (List Char × List Char) :=
  let d1 := xs.takeWhile Char.isDigit
  let r1 := xs.dropWhile Char.isDigit
  if d1 = [] then none
  else if uidLit.isPrefixOf r1 then
    let r2 := r1.drop uidLit.length
    let d2 := r2.takeWhile Char.isDigit
    if d2 = [] then none else some (d1, d2)
  else none

/-! ### Mailbox and message model

`Modelled from the spec:` the server-side mailbox state the protocol
commands act on — a sequence of messages, each with a stable UID, a
seen flag and raw content; sequence numbers are the 1-based positions
(§3 Data Model, §4.5, §4.6). -/

/-- One stored message: stable UID, seen flag, raw content. -/
structure Message where
  uid : Nat
  seen : Bool
  content : List Char
deriving DecidableEq

/-- A mailbox: messages in sequence-number order (1-based positions). -/
abbrev Mailbox := List Message

/-- `Modelled from the spec:` the server's `SEARCH (UNSEEN)` walking the
messages from sequence number `k`, collecting positions whose seen flag
is clear. -/
def searchGo (k : Nat) : List Message → List Nat
  | [] => []
  | msg :: rest =>
    if msg.seen then searchGo (k + 1) rest
    else k :: searchGo (k + 1) rest

/-- Sequence numbers of all unseen messages (`SEARCH (UNSEEN)`). -/
def searchUnseen (m : Mailbox) : List Nat := searchGo 1 m

/-- `Modelled from the spec:` the single data item of the search
response: the space-separated matched sequence numbers (`b''` when no
message matches), which `fetch_unseen` destructures as `(result,)`. -/
def searchData (m : Mailbox) : List Char :=
  joinSep [' '] ((searchUnseen m).map natChars)

/-- The message at sequence number `k` (1-based). -/
def nthMsg (m : Mailbox) (k : Nat) : Option Message := m[k - 1]?

/-- The tail of a fetch-response header line after the UID digits
(starts with a blank, so the greedy `\d+` group stops exactly there). -/
def fetchHeaderTail : List Char := [' ', 'R', 'F', 'C', '8', '2', '2']

/-- `Modelled from the spec:` the header line of one fetch-response
segment, `<sequenceNumber> (UID <uid> ...)`. -/
def headerBytes (k uid : Nat) : List Char :=
  natChars k ++ uidLit ++ natChars uid ++ fetchHeaderTail

/-- One element of the imaplib fetch response list: either a
`(header, content)` tuple or the closing `b')'` that imaplib interleaves
after each tuple. -/
inductive FetchDatum
  | pair (hdr content : List Char)
  | close
deriving DecidableEq

/-- `Modelled from the spec:` the server's response to a fetch of
`(UID RFC822)` for the given sequence numbers, as surfaced by imaplib:
one `(header, content)` tuple followed by `b')'` per existing message. -/
def fetchData (m : Mailbox) : List Nat → List FetchDatum
  | [] => []
  | k :: ks =>
    match nthMsg m k with
    | some msg =>
      FetchDatum.pair (headerBytes k msg.uid) msg.content :: FetchDatum.close ::
        fetchData m ks
    | none => fetchData m ks

/-- `Modelled from the spec:` `self.fetch(indices, '(UID RFC822)')` —
the server parses the sequence-set expression and returns the response
data; a malformed expression yields no data. -/
def imapFetch (m : Mailbox) (indices : List Char) : List FetchDatum :=
  match parseSequenceSet indices with
  | some ks => fetchData m ks
  | none => []

/-- Python `data[::2]`: every second element starting from the first. -/
def everyOther {α : Type} : List α → List α
  | [] => []
  | [a] => [a]
  | a :: _ :: rest => a :: everyOther rest

/-- The loop body of `fetch_unseen` (imap.py:68-75): destructure a
response element as `(_type, RFC822)` and match the header against the
pattern; `none` models the crash Python would suffer on a shape or
match failure. -/
def parseDatum : FetchDatum → Option (List Char × List Char × List Char)
  | FetchDatum.pair hdr content =>
    Option.map (fun p => (p.1, p.2, content)) (parseFetchHeader hdr)
  | FetchDatum.close => none

/-- The observable outcome of one `fetch_unseen` call: the `readonly`
flag passed to the mailbox scope, the fetch requests issued (their
sequence-set expressions), and the yielded
`(sequenceNumber, uid, rawContent)` triples (`none` = parse crash). -/
structure FetchRun where
  readonly : Bool
  fetchRequests : List (List Char)
  yields : Option (List (List Char × List Char × List Char))
deriving DecidableEq

/-- `IMAP.fetch_unseen` (imap.py:51-75): select with
`readonly=(not touch)`, search `(UNSEEN)`; when the result is non-empty,
join the split sequence numbers with commas, fetch `(UID RFC822)` once,
and parse every second response element with the header pattern. -/
def fetch_unseen (m : Mailbox) (touch : Bool) : FetchRun :=
  let result := searchData m
  if result ≠ [] then
    let indices := joinSep [','] (pysplit result)
    let data := imapFetch m indices
    { readonly := !touch
      fetchRequests := [indices]
      yields := mapMOpt parseDatum (everyOther data) }
  else
    { readonly := !touch, fetchRequests := [], yields := some [] }

/-- The triples the spec says `fetch_unseen` yields (§4.5): one
`(sequenceNumber, uniqueId, rawContent)` per unseen message, in mailbox
order, starting the sequence numbering at `k`.  This is the spec-side
description used to state the refinement, not a translation of code. -/
def specUnseenGo (k : Nat) : List Message → List (List Char × List Char × List Char)
  | [] => []
  | msg :: rest =>
    if msg.seen then specUnseenGo (k + 1) rest
    else (natChars k, natChars msg.uid, msg.content) :: specUnseenGo (k + 1) rest

/-- Spec-side statement of the `fetch_unseen` yield: one triple per
unseen message. -/
def specUnseenTriples (m : Mailbox) : List (List Char × List Char × List Char) :=
  specUnseenGo 1 m

/-- `Modelled from the spec:` the server's
`STORE <set> -FLAGS.SILENT (\Seen)` walking the messages from sequence
number `k`: clear the seen flag of exactly the messages whose sequence
number is in the set (§4.6). -/
def storeGo (s : List Nat) : Nat → List Message → List Message
  | _, [] => []
  | k, msg :: rest =>
    (if k ∈ s then { msg with seen := false } else msg) :: storeGo s (k + 1) rest

/-- Clear the seen flag on the given sequence numbers. -/
def store_minus_seen (m : Mailbox) (s : List Nat) : Mailbox := storeGo s 1 m

/-- `IMAP.mark_unseen` (imap.py:77-83):
`self.store(indices, '-FLAGS.SILENT', '\Seen')`, the response being
ignored; a sequence-set expression the server cannot parse is rejected
without touching the mailbox. -/
def mark_unseen (m : Mailbox) (indices : List Char) : Mailbox :=
  match parseSequenceSet indices with
  | some s => store_minus_seen m s
  | none => m

/-! ### Change detector (`subscribe`) -/

/-- `IMAP._get_exists_response` (imap.py:121-125): imaplib's
`_untagged_response('OK', [None], 'EXISTS')` hands back the accumulated
`EXISTS` data (defaulting to `[None]` when none arrived), the code takes
the last element and converts a truthy byte string with `int`.  Note the
byte string `b'0'` is truthy, so a reported count of zero comes back as
`some 0`. -/
def get_exists_response (data : List (List Char)) : Option Nat :=
  match data.getLast? with
  | none => none
  | some bs => if bs = [] then none else some (charsToNat bs)

/-- `IMAP._get_expunge_response` (imap.py:127-131): same shape as
`_get_exists_response`, on the accumulated `EXPUNGE` data. -/
def get_expunge_response (data : List (List Char)) : Option Nat :=
  match data.getLast? with
  | none => none
  | some bs => if bs = [] then none else some (charsToNat bs)

/-- The untagged data available in one iteration of the `subscribe`
loop: the accumulated `EXISTS` and `EXPUNGE` byte strings (empty list =
no such notification arrived). -/
structure SubIter where
  existsData : List (List Char)
  expungeData : List (List Char)
deriving DecidableEq

/-- One iteration of the `subscribe` loop body (imap.py:39-49) with
stored baseline `count`: if `_get_exists_response()` is truthy (a
nonzero count), store it and invoke the callback; otherwise, if an
expunge was reported, store its value without invoking the callback.
Returns the new baseline and whether the callback was invoked. -/
def subscribeStep (count : Nat) (it : SubIter) : Nat × Bool :=
  match get_exists_response it.existsData with
  | some n =>
    if n ≠ 0 then (n, true)
    else
      match get_expunge_response it.expungeData with
      | some e => (e, false)
      | none => (count, false)
  | none =>
    match get_expunge_response it.expungeData with
    | some e => (e, false)
    | none => (count, false)

/-- The whole `subscribe` consumption loop from baseline `count`:
returns the final baseline and the number of callback invocations. -/
def subscribeRun (count : Nat) : List SubIter → Nat × Nat
  | [] => (count, 0)
  | it :: rest =>
    let r := subscribeStep count it
    let rr := subscribeRun r.1 rest
    (rr.1, (if r.2 then 1 else 0) + rr.2)

/-- An iteration in which the server reported only the message count
`bs` (an `EXISTS` notification and nothing else). -/
def existsIter (bs : List Char) : SubIter := ⟨[bs], []⟩

/-! ### Push-notification engine (`idle`) -/

/-- The poll bound of the idle wait loop (imap.py:97,
`select_timeout = 1` second). -/
def select_timeout : Nat := 1

/-- The default re-issue ceiling of `idle` (imap.py:85,
`timeout=29*60` seconds). -/
def idleDefaultTimeout : Nat := 29 * 60

/-- What one `select([self.file], [], [], select_timeout)` round of the
idle wait loop observes. -/
inductive InEvent
  /-- Data ready and a `BYE` was seen: `_check_bye` raises `abort`. -/
  | readyBye
  /-- Data ready with a parsed response line, which is yielded; `cancel`
  means the consumer closes the generator at this yield, raising
  `GeneratorExit` there. -/
  | readyResp (r : List Char) (cancel : Bool)
  /-- Data ready but `_get_response` produced nothing to yield. -/
  | readyEmpty
  /-- The poll timed out. -/
  | timeout
deriving DecidableEq

/-- The externally visible protocol actions of the idle engine. -/
inductive IdleAct
  /-- `_idle_command` completed, returning the correlation tag. -/
  | idleCmd (tag : Nat)
  /-- A response line was yielded to the consumer. -/
  | yieldResp (r : List Char)
  /-- `_done_command(tag)`: the `DONE` exit signal was sent and the
  tagged completion for `tag` awaited. -/
  | doneCmd (tag : Nat)
deriving DecidableEq

/-- How the inner `while idling` loop (imap.py:100-115) ended. -/
inductive InnerExit
  /-- The elapsed-time accumulator reached the ceiling; the loop ended
  normally. -/
  | timedOut
  /-- `_check_bye` raised `abort`. -/
  | bye
  /-- `GeneratorExit` was raised at a yield. -/
  | cancelled
  /-- The event list ran out with the loop still idling (the generator
  stays suspended; no exit is in progress). -/
  | exhausted
deriving DecidableEq

/-- The inner wait loop of `idle` (imap.py:100-115): on ready data read
a response, check for `BYE`, yield any response; on timeout add
`select_timeout` to the accumulator and stop idling once it reaches the
ceiling. -/
def innerLoop (timeout : Nat) : Nat → List InEvent → List IdleAct × InnerExit
  | _, [] => ([], InnerExit.exhausted)
  | timer, e :: es =>
    match e with
    | InEvent.readyBye => ([], InnerExit.bye)
    | InEvent.readyResp r cancel =>
      if cancel then ([IdleAct.yieldResp r], InnerExit.cancelled)
      else
        let rec' := innerLoop timeout timer es
        (IdleAct.yieldResp r :: rec'.1, rec'.2)
    | InEvent.readyEmpty => innerLoop timeout timer es
    | InEvent.timeout =>
      let timer' := timer + select_timeout
      if timer' ≥ timeout then ([], InnerExit.timedOut)
      else innerLoop timeout timer' es

/-- How one outer-loop pass of `idle` (one IDLE session) ended. -/
inductive SessionExit
  /-- Timed out and `DONE` completed `OK`: the outer `while 1`
  immediately re-enters IDLE. -/
  | reenter
  /-- The `abort` raised by `_check_bye` propagates (after the
  `finally`). -/
  | errBye
  /-- `_done_command` raised `self.error(data)` — a request-error —
  because the tagged completion was not `OK`. -/
  | doneRequestError
  /-- `GeneratorExit` propagates: the generator is closed. -/
  | cancelled
  /-- The generator is still suspended inside the wait loop. -/
  | suspended
  /-- `_idle_command` itself raised on the first entry: its `finally`
  still set the state to `IDLING`, but the outer `finally` evaluates
  `_done_command(tag)` with `tag` unbound, so no `DONE` is sent. -/
  | errEntry
deriving DecidableEq

/-- One pass of the outer `while 1` of `idle` (imap.py:92-119): run
`_idle_command` (whose `finally` sets the state to `IDLING`), run the
wait loop, and on any exit of the `try` run the `finally`, which sends
`DONE` iff the state is still `IDLING`.  `doneStatus` is the tagged
completion status `_done_command` would observe.  Returns the action
trace, the state the session leaves behind, and how it ended. -/
def idleSession (timeout : Nat) (entryOk : Bool) (tag : Nat)
    (doneStatus : String) (events : List InEvent) :
    List IdleAct × SessionState × SessionExit :=
  if entryOk then
    let st := SessionState.IDLING
    let ia := (innerLoop timeout 0 events).1
    let ix := (innerLoop timeout 0 events).2
    match ix with
    | InnerExit.exhausted => (IdleAct.idleCmd tag :: ia, st, SessionExit.suspended)
    | _ =>
      let baseExit : SessionExit :=
        match ix with
        | InnerExit.timedOut => SessionExit.reenter
        | InnerExit.bye => SessionExit.errBye
        | InnerExit.cancelled => SessionExit.cancelled
        | InnerExit.exhausted => SessionExit.suspended
      if st = SessionState.IDLING then
        (IdleAct.idleCmd tag :: ia ++ [IdleAct.doneCmd tag], SessionState.SELECTED,
         if doneStatus = "OK" then baseExit else SessionExit.doneRequestError)
      else (IdleAct.idleCmd tag :: ia, st, baseExit)
  else ([], SessionState.IDLING, SessionExit.errEntry)

/-- The environment of one IDLE session: whether `_idle_command`
succeeds, the tag it returns, the completion status `DONE` would get,
and the poll events. -/
structure SessionInput where
  entryOk : Bool
  tag : Nat
  doneStatus : String
  events : List InEvent

/-- The outer `while 1` of `idle`: keep running sessions as long as each
ends in `reenter`; any other ending stops the loop (error or closed
generator), and running out of scripted sessions leaves the generator
suspended. -/
def idleLoop (timeout : Nat) : List SessionInput → List IdleAct × SessionExit
  | [] => ([], SessionExit.suspended)
  | si :: rest =>
    let r := idleSession timeout si.entryOk si.tag si.doneStatus si.events
    match r.2.2 with
    | SessionExit.reenter =>
      let rr := idleLoop timeout rest
      (r.1 ++ rr.1, rr.2)
    | ex => (r.1, ex)

/-! ## Theorems -/

/-! ### Digit and byte-string lemmas -/

/-- Every character produced by `digitChar` is a decimal digit. -/
theorem digitChar_isDigit (k : Nat) : (digitChar k).isDigit = true := by
  unfold digitChar
  split <;> decide

/-- `digitVal` inverts `digitChar` on digit values. -/
theorem digitVal_digitChar (k : Nat) (h : k < 10) : digitVal (digitChar k) = k := by
  interval_cases k <;> decide

/-- The decimal rendering of a number is never empty. -/
theorem natChars_ne_nil (n : Nat) : natChars n ≠ [] := by
  rw [natChars]
  split <;> simp

/-- The decimal rendering consists of digit characters only. -/
theorem natChars_all_digit (n : Nat) : ∀ c ∈ natChars n, c.isDigit = true := by
  induction n using Nat.strong_induction_on with
  | _ n ih =>
    rw [natChars]
    split
    · simp [digitChar_isDigit]
    · rename_i h
      intro c hc
      rcases List.mem_append.1 hc with h1 | h1
      · exact ih (n / 10) (Nat.div_lt_self (by omega) (by omega)) c h1
      · simp at h1
        subst h1
        exact digitChar_isDigit _
/-- A non-digit character never occurs in a decimal rendering. -/
theorem not_mem_natChars {c : Char} (hc : ¬ c.isDigit = true) (n : Nat) :
    c ∉ natChars n := fun h => hc (natChars_all_digit n c h)

/-- Pulling the last digit out of Python `int()`. -/
theorem charsToNat_append (l : List Char) (c : Char) :
    charsToNat (l ++ [c]) = 10 * charsToNat l + digitVal c := by
  simp [charsToNat, List.foldl_append]

/-- Python `int()` inverts the server's decimal rendering. -/
theorem charsToNat_natChars (n : Nat) : charsToNat (natChars n) = n := by
  induction n using Nat.strong_induction_on with
  | _ n ih =>
    rw [natChars]
    split
    · rename_i h
      simp [charsToNat, digitVal_digitChar n h]
    · rename_i h
      rw [charsToNat_append, ih (n / 10) (Nat.div_lt_self (by omega) (by omega)),
        digitVal_digitChar (n % 10) (Nat.mod_lt _ (by omega))]
      omega

/-- `splitCh` always produces at least one piece. -/
theorem splitCh_ne_nil (c : Char) (xs : List Char) : splitCh c xs ≠ [] := by
  induction xs with
  | nil => simp [splitCh]
  | cons a rest ih =>
    cases hsp : splitCh c rest with
    | nil => exact absurd hsp ih
    | cons g gs =>
      rw [splitCh, hsp]
      by_cases hac : a = c <;> simp [hac]

/-- A piece with no separator splits into itself. -/
theorem splitCh_not_mem {c : Char} {xs : List Char} (h : c ∉ xs) :
    splitCh c xs = [xs] := by
  induction xs with
  | nil => rfl
  | cons a rest ih =>
    have ha : ¬ a = c := fun hac => h (hac ▸ List.mem_cons_self a rest)
    have hrest : c ∉ rest := fun hr => h (List.mem_cons_of_mem a hr)
    rw [splitCh, ih hrest]
    simp [ha]

/-- Splitting peels off one separator-free piece before a separator. -/
theorem splitCh_append_sep {c : Char} {xs : List Char} (rest : List Char)
    (h : c ∉ xs) : splitCh c (xs ++ c :: rest) = xs :: splitCh c rest := by
  induction xs with
  | nil =>
    obtain ⟨g, gs, hg⟩ := List.exists_cons_of_ne_nil (splitCh_ne_nil c rest)
    simp [splitCh, hg]
  | cons a xs ih =>
    have ha : ¬ a = c := fun hac => h (hac ▸ List.mem_cons_self a xs)
    have hxs : c ∉ xs := fun hr => h (List.mem_cons_of_mem a hr)
    rw [List.cons_append, splitCh, ih hxs]
    simp [ha]

/-- Splitting inverts joining on separator-free pieces. -/
theorem splitCh_joinSep {c : Char} : ∀ (x : List Char) (ls : List (List Char)),
    c ∉ x → (∀ y ∈ ls, c ∉ y) →
    splitCh c (joinSep [c] (x :: ls)) = x :: ls := by
  intro x ls
  induction ls generalizing x with
  | nil => intro hx _; simp [joinSep, splitCh_not_mem hx]
  | cons y ls ih =>
    intro hx hls
    have : joinSep [c] (x :: y :: ls) = x ++ c :: joinSep [c] (y :: ls) := by
      simp [joinSep]
    rw [this, splitCh_append_sep _ hx,
      ih y (hls y (List.mem_cons_self y ls)) (fun z hz => hls z (List.mem_cons_of_mem y hz))]

/-- Python `bytes.split()` inverts a blank-join of nonempty blank-free
pieces, as produced by the search response. -/
theorem pysplit_joinSep (ls : List (List Char))
    (h : ∀ x ∈ ls, x ≠ [] ∧ ' ' ∉ x) : pysplit (joinSep [' '] ls) = ls := by
  cases ls with
  | nil => rfl
  | cons x ls =>
    rw [pysplit, splitCh_joinSep x ls (h x (List.mem_cons_self x ls)).2
      (fun y hy => (h y (List.mem_cons_of_mem x hy)).2)]
    exact List.filter_eq_self.2 (fun y hy => by
      simpa using (h y hy).1)

/-- Joining a nonempty first piece never yields the empty byte string. -/
theorem joinSep_ne_nil {x : List Char} (sep : List Char)
    (ls : List (List Char)) (hx : x ≠ []) : joinSep sep (x :: ls) ≠ [] := by
  cases ls <;> simp [joinSep, hx]

/-- The server's sequence-set parser accepts a single rendered number. -/
theorem parseItem_natChars (n : Nat) : parseItem (natChars n) = some [n] := by
  have hns : (':' : Char) ∉ natChars n := not_mem_natChars (by decide) n
  rw [parseItem, splitCh_not_mem hns]
  simp [natChars_ne_nil n, List.all_eq_true.2 (natChars_all_digit n), charsToNat_natChars]

/-- The server's sequence-set parser inverts the client's comma-join of
rendered sequence numbers. -/
theorem parseSequenceSet_joinSep (ks : List Nat) (h : ks ≠ []) :
    parseSequenceSet (joinSep [','] (ks.map natChars)) = some ks := by
  obtain ⟨k, ks', rfl⟩ := List.exists_cons_of_ne_nil h
  rw [parseSequenceSet, List.map_cons,
    splitCh_joinSep (natChars k) (ks'.map natChars)
      (not_mem_natChars (by decide) k)
      (fun y hy => by
        obtain ⟨n, _, rfl⟩ := List.mem_map.1 hy
        exact not_mem_natChars (by decide) n)]
  have hmap : ∀ (l : List Nat),
      mapMOpt parseItem (l.map natChars) = some (l.map (fun n => [n])) := by
    intro l
    induction l with
    | nil => rfl
    | cons a l ih => simp [mapMOpt, parseItem_natChars, ih]
  have hflat : ∀ (l : List Nat), (l.map (fun n => [n])).flatten = l := by
    intro l
    induction l with
    | nil => rfl
    | cons a l ih => simp [ih]
  rw [show (natChars k :: ks'.map natChars) = ((k :: ks').map natChars) from rfl,
    hmap]
  simp [hflat]

/-- Splitting a wholly-`p` block off the front of a list: `takeWhile`
keeps exactly the block and `dropWhile` exactly the remainder whose
head refutes `p`. -/
theorem takeWhile_dropWhile_append {p : Char → Bool} (l r : List Char)
    (hl : ∀ c ∈ l, p c = true) (hr : ∀ c, r.head? = some c → p c = false) :
    (l ++ r).takeWhile p = l ∧ (l ++ r).dropWhile p = r := by
  induction l with
  | nil =>
    cases r with
    | nil => simp
    | cons c r' =>
      have := hr c rfl
      simp [List.takeWhile_cons, List.dropWhile_cons, this]
  | cons a l ih =>
    have ha := hl a (List.mem_cons_self a l)
    have ih' := ih (fun c hc => hl c (List.mem_cons_of_mem a hc))
    simp [List.takeWhile_cons, List.dropWhile_cons, ha, ih'.1, ih'.2]

/-- The client's header pattern extracts exactly the sequence number and
the UID from a server fetch-response header line. -/
theorem parseFetchHeader_headerBytes (k uid : Nat) :
    parseFetchHeader (headerBytes k uid) = some (natChars k, natChars uid) := by
  have hassoc : headerBytes k uid =
      natChars k ++ (uidLit ++ (natChars uid ++ fetchHeaderTail)) := by
    simp [headerBytes, List.append_assoc]
  have h1 := takeWhile_dropWhile_append (p := Char.isDigit)
    (natChars k) (uidLit ++ (natChars uid ++ fetchHeaderTail))
    (natChars_all_digit k)
    (fun c hc => by simp [uidLit] at hc; subst hc; decide)
  have h2 := takeWhile_dropWhile_append (p := Char.isDigit)
    (natChars uid) fetchHeaderTail
    (natChars_all_digit uid)
    (fun c hc => by simp [fetchHeaderTail] at hc; subst hc; decide)
  rw [parseFetchHeader, hassoc, h1.1, h1.2]
  simp only [natChars_ne_nil k, if_false]
  rw [if_pos (by simp [ List.isPrefixOf_iff_prefix])]
  rw [List.drop_left, h2.1]
  simp [natChars_ne_nil k, natChars_ne_nil uid]

/-- The batched fetch of the searched-out unseen sequence numbers
parses, pair by pair, into exactly the spec's triples.  `pre` is the
already-scanned prefix of the mailbox; the sequence numbering starts
after it. -/
theorem fetchParse_searchGo : ∀ (tail pre : List Message),
    mapMOpt parseDatum
        (everyOther (fetchData (pre ++ tail) (searchGo (pre.length + 1) tail))) =
      some (specUnseenGo (pre.length + 1) tail) := by
  intro tail
  induction tail with
  | nil => intro pre; simp [searchGo, fetchData, everyOther, specUnseenGo, mapMOpt]
  | cons msg rest ih =>
    intro pre
    have ihm : mapMOpt parseDatum
        (everyOther (fetchData (pre ++ msg :: rest) (searchGo (pre.length + 2) rest))) =
        some (specUnseenGo (pre.length + 2) rest) := by
      have := ih (pre ++ [msg])
      simpa [List.append_assoc, Nat.add_assoc] using this
    by_cases hs : msg.seen
    · simpa [searchGo, specUnseenGo, hs, Nat.add_assoc] using ihm
    · have hn : nthMsg (pre ++ msg :: rest) (pre.length + 1) = some msg := by
        simp [nthMsg, List.getElem?_append_right (Nat.le_refl pre.length)]
      simp only [searchGo, specUnseenGo, hs, if_false, Bool.false_eq_true]
      rw [fetchData, hn]
      rw [everyOther]
      simp only [mapMOpt, parseDatum, parseFetchHeader_headerBytes]
      rw [show pre.length + 1 + 1 = pre.length + 2 from rfl, ihm]
      simp

/-- An empty search leaves nothing for the spec-side triples either. -/
theorem specUnseenGo_eq_nil : ∀ (l : List Message) (k : Nat),
    searchGo k l = [] → specUnseenGo k l = [] := by
  intro l
  induction l with
  | nil => intro k _; rfl
  | cons msg rest ih =>
    intro k h
    by_cases hs : msg.seen
    · simp only [searchGo, hs, if_true] at h
      simp [specUnseenGo, hs, ih (k + 1) h]
    · simp [searchGo, hs] at h

/-- C7: `fetch_unseen` selects the mailbox read-write exactly when
`touch` is true; when the `(UNSEEN)` search matches nothing it issues no
fetch and yields nothing; otherwise it issues exactly one batched fetch
whose sequence-set expression is the comma-join of all matched sequence
numbers, and the yielded triples are exactly one
`(sequenceNumber, uid, rawContent)` per matched message, the first two
components extracted by matching each response segment's header against
`<sequenceNumber> (UID <uid> ...)`. -/
theorem C7_fetch_unseen_yields (m : Mailbox) (touch : Bool) :
    (fetch_unseen m touch).readonly = !touch ∧
    (fetch_unseen m touch).yields = some (specUnseenTriples m) ∧
    (fetch_unseen m touch).fetchRequests =
      (if searchUnseen m = [] then []
       else [joinSep [','] ((searchUnseen m).map natChars)]) := by
  by_cases hse : searchUnseen m = []
  · have hsd : searchData m = [] := by simp [searchData, hse, joinSep]
    have hspec : specUnseenTriples m = [] :=
      specUnseenGo_eq_nil m 1 hse
    simp [fetch_unseen, hsd, hse, hspec]
  · obtain ⟨k, ks, hks⟩ := List.exists_cons_of_ne_nil hse
    have hne : searchData m ≠ [] := by
      rw [searchData, hks, List.map_cons]
      exact joinSep_ne_nil _ _ (natChars_ne_nil k)
    have hps : pysplit (searchData m) = (searchUnseen m).map natChars :=
      pysplit_joinSep _ (fun x hx => by
        obtain ⟨n, _, rfl⟩ := List.mem_map.1 hx
        exact ⟨natChars_ne_nil n, not_mem_natChars (by decide) n⟩)
    have hparse := parseSequenceSet_joinSep (searchUnseen m) hse
    have hmain := fetchParse_searchGo m []
    simp only [List.nil_append, List.length_nil, Nat.zero_add] at hmain
    simp only [searchUnseen] at hse hps hparse
    simp [fetch_unseen, hne, hps, imapFetch, hparse, hse, specUnseenTriples,
      searchUnseen, hmain]

/-- Clearing the seen flag on a set of sequence numbers twice is the
same as clearing it once. -/
theorem storeGo_idem (s : List Nat) : ∀ (l : List Message) (k : Nat),
    storeGo s k (storeGo s k l) = storeGo s k l := by
  intro l
  induction l with
  | nil => intro k; rfl
  | cons msg rest ih =>
    intro k
    by_cases hk : k ∈ s <;> simp [storeGo, hk, ih]

/-- Clearing the seen flag is a no-op when every targeted message is
already unseen. -/
theorem storeGo_noop (s : List Nat) : ∀ (l : List Message) (k : Nat),
    (∀ i, (k + i) ∈ s → ∀ msg, l[i]? = some msg → msg.seen = false) →
    storeGo s k l = l := by
  intro l
  induction l with
  | nil => intro k _; rfl
  | cons msg rest ih =>
    intro k h
    have hhead : (if k ∈ s then { msg with seen := false } else msg) = msg := by
      by_cases hk : k ∈ s
      · have hmsg := h 0 (by simpa using hk) msg (by simp)
        cases msg with
        | mk u se co =>
          simp only [if_pos hk]
          simp at hmsg
          simp [hmsg]
      · simp [hk]
    have htail := ih (k + 1) (fun i hi msg' hm =>
      h (i + 1) (by rw [show k + (i + 1) = k + 1 + i from by omega]; exact hi)
        msg' (by simpa using hm))
    rw [storeGo, hhead, htail]

/-- C8: `mark_unseen` is idempotent — the store command clears the seen
flag of exactly the addressed sequence numbers, so a second invocation
with the same range expression leaves the mailbox unchanged — and
invoking it on messages that are already unseen is a no-op. -/
theorem C8_mark_unseen_idempotent (m : Mailbox) (indices : List Char) :
    mark_unseen (mark_unseen m indices) indices = mark_unseen m indices ∧
    (∀ s, parseSequenceSet indices = some s →
      (∀ k, k ∈ s → ∀ msg, nthMsg m k = some msg → msg.seen = false) →
      mark_unseen m indices = m) := by
  constructor
  · cases hp : parseSequenceSet indices with
    | none => simp [mark_unseen, hp]
    | some s => simp [mark_unseen, hp, store_minus_seen, storeGo_idem]
  · intro s hp h
    simp only [mark_unseen, hp, store_minus_seen]
    apply storeGo_noop
    intro i hi msg hm
    have hnth : nthMsg m (1 + i) = some msg := by
      simpa [nthMsg, show 1 + i - 1 = i from by omega] using hm
    exact h (1 + i) hi msg hnth

/-- C8 (witness): marking the single already-unseen message of a
one-message mailbox unseen changes nothing, once or twice. -/
theorem C8_mark_unseen_idempotent_witness :
    mark_unseen (mark_unseen [⟨17, false, ['a']⟩] ['1']) ['1'] =
      mark_unseen [⟨17, false, ['a']⟩] ['1'] ∧
    parseSequenceSet ['1'] = some [1] ∧
    mark_unseen [⟨17, false, ['a']⟩] ['1'] = [⟨17, false, ['a']⟩] := by
  refine ⟨(C8_mark_unseen_idempotent [⟨17, false, ['a']⟩] ['1']).1, by decide, ?_⟩
  apply (C8_mark_unseen_idempotent [⟨17, false, ['a']⟩] ['1']).2 [1] (by decide)
  intro k hk msg hmsg
  simp at hk
  subst hk
  simp [nthMsg] at hmsg
  subst hmsg
  rfl

/-- C1: evaluation of `subscribe` at the spec's own example trace.  From
baseline 5, the reported counts 5, 7, 6, 9 produce FOUR callback
invocations under the code — one per nonzero `EXISTS` report — whereas
the claim requires exactly two (only the strictly positive steps +2 and
+3).  In particular the callback fires on the zero step 5→5 and on the
negative step 7→6: the code never compares the new count with the
stored baseline before invoking the callback. -/
theorem C1_callback_fires_on_nonpositive_steps :
    (subscribeRun 5 [existsIter ['5'], existsIter ['7'], existsIter ['6'],
      existsIter ['9']]).2 = 4 ∧
    subscribeStep 5 (existsIter ['5']) = (5, true) ∧
    subscribeStep 7 (existsIter ['6']) = (6, true) := by
  refine ⟨?_, ?_, ?_⟩ <;> decide

/-- C3 (counterexample): with the session state `SELECTED` at exit,
`login.__exit__` makes no teardown attempt at all — `logout` requires
state `AUTH` and `shutdown` requires state `NONAUTH` — refuting
"for every exit path exactly one teardown attempt occurs, regardless of
the session state at exit". -/
theorem C3_no_teardown_when_selected :
    login_exit_cleanup SessionState.SELECTED = [] ∧
    (login_exit_cleanup SessionState.SELECTED).length ≠ 1 := by
  refine ⟨?_, ?_⟩ <;> decide

/-- C3 (amended): on every exit of the lifecycle scope at most one
teardown attempt occurs; exactly one occurs iff the session state at
exit is `AUTH` or `NONAUTH` — `logout` (which also tears down the
transport) when `AUTH`, a direct `shutdown` when `NONAUTH`, and never
both, because `logout` moves the state to `LOGOUT` before the
`NONAUTH` check — and no teardown is attempted in any other state. -/
theorem C3_teardown_iff_auth_or_nonauth (st : SessionState) :
    (login_exit_cleanup st).length ≤ 1 ∧
    ((login_exit_cleanup st).length = 1 ↔
      st = SessionState.AUTH ∨ st = SessionState.NONAUTH) ∧
    (st = SessionState.AUTH → login_exit_cleanup st = [Teardown.logout]) ∧
    (st = SessionState.NONAUTH → login_exit_cleanup st = [Teardown.shutdown]) := by
  cases st <;> refine ⟨by decide, by decide, by decide, by decide⟩

/-- C3 (witness): instantiation at the `AUTH` exit state. -/
theorem C3_teardown_iff_auth_or_nonauth_witness :
    (login_exit_cleanup SessionState.AUTH).length = 1 ∧
    login_exit_cleanup SessionState.AUTH = [Teardown.logout] :=
  ⟨((C3_teardown_iff_auth_or_nonauth SessionState.AUTH).2.1).2 (Or.inl rfl),
   (C3_teardown_iff_auth_or_nonauth SessionState.AUTH).2.2.1 rfl⟩

/-- C4: the error mapping of `login.__exit__`: a transport-level
failure (`OSError`) and a protocol abort (`IMAP.abort`) are re-raised
as `ConnectionError`; another protocol failure (`IMAP.error`) is
re-raised as `ValueError` carrying the server-supplied detail; the
interruption signal `InterruptedError` — although it is itself a
subclass of `OSError` — is never reclassified and propagates
unchanged, as does any exception outside both hierarchies. -/
theorem C4_error_mapping (message : String) :
    login_exit_exc (some (ExcClass.oserror, message)) =
      ExitBehavior.raiseConnectionError message ∧
    login_exit_exc (some (ExcClass.imapAbort, message)) =
      ExitBehavior.raiseConnectionError message ∧
    login_exit_exc (some (ExcClass.imapError, message)) =
      ExitBehavior.raiseValueError message ∧
    login_exit_exc (some (ExcClass.interruptedError, message)) =
      ExitBehavior.passThrough ExcClass.interruptedError ∧
    isOSErrorSub ExcClass.interruptedError = true ∧
    login_exit_exc (some (ExcClass.keyboardInterrupt, message)) =
      ExitBehavior.passThrough ExcClass.keyboardInterrupt :=
  ⟨rfl, rfl, rfl, rfl, rfl, rfl⟩

/-- C6: entering a mailbox scope raises `self.error(details)` — the
request-error carrying the server detail — exactly when the selection
status is not `'OK'` (on success the state becomes `SELECTED`), and the
scope exit issues the deselection `close()` exactly when the session
state is still `SELECTED` at that point. -/
theorem C6_mailbox_scope (status details : String) (st : SessionState) :
    ((mailbox_enter status details).2 =
        Except.error (PyErr.requestError details) ↔ status ≠ "OK") ∧
    (status = "OK" → mailbox_enter status details = (SessionState.SELECTED, Except.ok ())) ∧
    ((mailbox_exit st).2 = true ↔ st = SessionState.SELECTED) := by
  refine ⟨?_, ?_, ?_⟩
  · by_cases h : status = "OK" <;> simp [mailbox_enter, imaplibSelect, h]
  · intro h
    simp [mailbox_enter, imaplibSelect, h]
  · cases st <;> simp [mailbox_exit]

/-- C6 (witness): instantiation at a failing selection (`'NO'`) and at
the `SELECTED` exit state. -/
theorem C6_mailbox_scope_witness :
    ((mailbox_enter "NO" "nope").2 =
        Except.error (PyErr.requestError "nope") ↔ "NO" ≠ "OK") ∧
    ((mailbox_exit SessionState.SELECTED).2 = true ↔
      SessionState.SELECTED = SessionState.SELECTED) :=
  ⟨(C6_mailbox_scope "NO" "nope" SessionState.SELECTED).1,
   (C6_mailbox_scope "NO" "nope" SessionState.SELECTED).2.2⟩

/-- C9: whatever `self._command('IDLE')` returns or raises, the
`finally` of `_idle_command` leaves the state `IDLING`; whatever the
`DONE` send or the completion check does, the `finally` of
`_done_command` leaves the state `SELECTED`; consequently, after a
failed idle-exit handshake the surrounding mailbox scope still issues
its deselection (`close`, moving the state to `AUTH`), and the
lifecycle teardown still runs `logout` from there. -/
theorem C9_state_restored_by_finally (cmdResult : Except PyErr Nat)
    (sendResult : Except PyErr Unit) (status data : String) (st st' : SessionState) :
    (idle_command cmdResult st).1 = SessionState.IDLING ∧
    (done_command sendResult status data st').1 = SessionState.SELECTED ∧
    mailbox_exit (done_command sendResult status data st').1 =
      (SessionState.AUTH, true) ∧
    login_exit_cleanup
        (mailbox_exit (done_command sendResult status data st').1).1 =
      [Teardown.logout] :=
  ⟨rfl, rfl, rfl, rfl⟩

/-- C10: a zero `EXISTS` report behaves exactly like the absence of an
`EXISTS` report: `int(b'0')` is falsy, so the callback is not invoked,
the baseline is not set to 0, and the iteration's baseline changes only
when an expunge report is present (to the expunge value). -/
theorem C10_zero_count_like_absent (count : Nat) (data expungeData : List (List Char))
    (h : get_exists_response data = some 0) :
    subscribeStep count ⟨data, expungeData⟩ =
      subscribeStep count ⟨[], expungeData⟩ ∧
    (subscribeStep count ⟨data, expungeData⟩).2 = false ∧
    (get_expunge_response expungeData = none →
      subscribeStep count ⟨data, expungeData⟩ = (count, false)) ∧
    (∀ e, get_expunge_response expungeData = some e →
      subscribeStep count ⟨data, expungeData⟩ = (e, false)) := by
  have habs : get_exists_response [] = none := rfl
  cases hexp : get_expunge_response expungeData <;>
    simp [subscribeStep, h, habs, hexp]

/-- The wait loop fed exactly enough poll timeouts to make the
accumulator reach the ceiling ends with `timedOut` and no action. -/
theorem innerLoop_replicate_reach (n : Nat) : ∀ (timer timeout : Nat),
    timer + n = timeout → 1 ≤ n →
    innerLoop timeout timer (List.replicate n InEvent.timeout) =
      ([], InnerExit.timedOut) := by
  induction n with
  | zero => intro timer timeout _ h1; omega
  | succ n ih =>
    intro timer timeout hsum _
    rw [List.replicate_succ]
    by_cases hge : timer + select_timeout ≥ timeout
    · simp [innerLoop, hge]
    · have hn : 1 ≤ n := by
        simp [select_timeout] at hge
        omega
      simp only [innerLoop, hge, if_false]
      exact ih (timer + select_timeout) timeout (by simp [select_timeout]; omega) hn

/-- The wait loop fed too few poll timeouts to reach the ceiling leaves
the generator suspended, with no action taken. -/
theorem innerLoop_replicate_under (n : Nat) : ∀ (timer timeout : Nat),
    timer + n < timeout →
    innerLoop timeout timer (List.replicate n InEvent.timeout) =
      ([], InnerExit.exhausted) := by
  induction n with
  | zero => intro timer timeout _; simp [innerLoop]
  | succ n ih =>
    intro timer timeout hlt
    rw [List.replicate_succ]
    have hge : ¬ timer + select_timeout ≥ timeout := by
      simp [select_timeout] at hlt ⊢
      omega
    simp only [innerLoop, hge, if_false]
    exact ih (timer + select_timeout) timeout (by simp [select_timeout] at hlt ⊢; omega)

/-- C2: for every exit of one IDLE session other than remaining
suspended in the wait loop — i.e. normal timeout cycling, the `abort`
raised on a `BYE`, a failed `DONE` completion, or external closing of
the generator at a yield — the session state is `IDLING` when the
`finally` runs, so the `DONE` exit signal (with the retained
correlation tag) is sent before the exit propagates. -/
theorem C2_done_sent_on_exit (timeout tag : Nat) (doneStatus : String)
    (events : List InEvent)
    (h : (idleSession timeout true tag doneStatus events).2.2 ≠ SessionExit.suspended) :
    IdleAct.doneCmd tag ∈ (idleSession timeout true tag doneStatus events).1 := by
  cases hix : (innerLoop timeout 0 events).2 <;>
    simp [idleSession, hix] at h ⊢

/-- C2 (witness): a session ended by a server `BYE` during the wait has
sent `DONE` on its way out. -/
theorem C2_done_sent_on_exit_witness :
    (idleSession 5 true 3 "OK" [InEvent.readyBye]).2.2 ≠ SessionExit.suspended ∧
    IdleAct.doneCmd 3 ∈ (idleSession 5 true 3 "OK" [InEvent.readyBye]).1 :=
  ⟨by decide, C2_done_sent_on_exit 5 3 "OK" [InEvent.readyBye] (by decide)⟩

/-- C5: each poll timeout adds the poll bound (`select_timeout = 1`
second) to the accumulator; exactly when it reaches the ceiling
(`timeout`, default `29 * 60 = 1740` seconds) the session sends `DONE`,
awaits the completion matched by the retained tag, ends in
`doneRequestError` when that completion is not `OK` and otherwise in
`reenter` — one poll fewer and nothing is sent at all — and a
`reenter` immediately starts the next IDLE session within the same
outer loop. -/
theorem C5_timeout_reissue (timeout tag : Nat) (doneStatus : String)
    (rest : List SessionInput) (h : 1 ≤ timeout) :
    idleSession timeout true tag doneStatus (List.replicate timeout InEvent.timeout) =
      ([IdleAct.idleCmd tag, IdleAct.doneCmd tag], SessionState.SELECTED,
       if doneStatus = "OK" then SessionExit.reenter else SessionExit.doneRequestError) ∧
    idleSession timeout true tag doneStatus (List.replicate (timeout - 1) InEvent.timeout) =
      ([IdleAct.idleCmd tag], SessionState.IDLING, SessionExit.suspended) ∧
    idleLoop timeout
        ({ entryOk := true, tag := tag, doneStatus := "OK",
           events := List.replicate timeout InEvent.timeout } :: rest) =
      ([IdleAct.idleCmd tag, IdleAct.doneCmd tag] ++ (idleLoop timeout rest).1,
       (idleLoop timeout rest).2) ∧
    select_timeout = 1 ∧ idleDefaultTimeout = 1740 := by
  have hreach := innerLoop_replicate_reach timeout 0 timeout (by omega) h
  have hunder := innerLoop_replicate_under (timeout - 1) 0 timeout (by omega)
  refine ⟨?_, ?_, ?_, rfl, rfl⟩
  · simp [idleSession, hreach]
  · simp [idleSession, hunder]
  · simp [idleLoop, idleSession, hreach]

/-- C5 (witness): with a two-second ceiling, two poll timeouts trigger
the exit/re-enter handshake (failing with the request-error when the
completion is `'NO'`), while a single poll timeout sends nothing. -/
theorem C5_timeout_reissue_witness :
    (1 ≤ 2) ∧
    idleSession 2 true 0 "NO" (List.replicate 2 InEvent.timeout) =
      ([IdleAct.idleCmd 0, IdleAct.doneCmd 0], SessionState.SELECTED,
       SessionExit.doneRequestError) ∧
    idleSession 2 true 0 "NO" (List.replicate 1 InEvent.timeout) =
      ([IdleAct.idleCmd 0], SessionState.IDLING, SessionExit.suspended) :=
  ⟨by decide,
   by simpa using (C5_timeout_reissue 2 0 "NO" [] (by decide)).1,
   by simpa using (C5_timeout_reissue 2 0 "NO" [] (by decide)).2.1⟩

/-- C10 (witness): baseline 5, an `EXISTS 0` report and an expunge
report of 3: the callback does not fire and the baseline becomes 3,
exactly as with no `EXISTS` report at all. -/
theorem C10_zero_count_like_absent_witness :
    subscribeStep 5 ⟨[['0']], [['3']]⟩ = subscribeStep 5 ⟨[], [['3']]⟩ ∧
    (subscribeStep 5 ⟨[['0']], [['3']]⟩).2 = false ∧
    subscribeStep 5 ⟨[['0']], [['3']]⟩ = (3, false) :=
  ⟨(C10_zero_count_like_absent 5 [['0']] [['3']] (by decide)).1,
   (C10_zero_count_like_absent 5 [['0']] [['3']] (by decide)).2.1,
   (C10_zero_count_like_absent 5 [['0']] [['3']] (by decide)).2.2.2 3 (by decide)⟩
